import Mathlib

/-
Verification development for the ArbitrageEdge repository
(src/app/config.py, src/app/db/create_db.py).

The Python code is shallowly embedded:
  - the Sports enumeration (config.py lines 16-103) becomes an inductive
    type with a string value per member, copied verbatim from the source
    (including the member-name/value mismatches present there, e.g.
    basketball_ncaa = "baseball_ncaa");
  - pydantic request models become field-specification lists processed by
    a small validation engine (buildFields) that mirrors pydantic v2
    semantics: values are looked up under their wire alias, supplied
    values are validated against the declared type, absent optional
    fields take their declared default verbatim (pydantic does not
    validate defaults), absent required fields fail, and a
    mode="before" model validator runs on the raw input mapping first;
  - Python runtime values are modelled by the dynamic type Val, since
    pydantic fields can hold values outside their annotation (defaults
    are not validated);
  - validation failure is an Except String error; pydantic collects all
    field errors while this embedding reports the first (fields are
    processed in declaration order, as pydantic does).
-/

/-- The Sports enumeration of config.py lines 16-103.  Constructor names
are the Python member names (typos included); values are attached by
Sports.value below. -/
inductive Sports where
  | americanfootball_cfl
  | americanfootball_ncaaf
  | americanfootball_ncaaf_championship_winner
  | americanfootball_nfl
  | americanfootball_nfl_preseason
  | americanfootball_nfl_super_bowl_winner
  | americanfootball_ufl
  | baseball_milb
  | baseball_mlb
  | baseball_mlb_preseason
  | baseball_mlb_world_series_winner
  | basketball_ncaa
  | baskbetball_nba
  | basketball_nba_championship_winner
  | basketball_nba_preseason
  | basketball_nba_summer_league
  | basketball_ncaab
  | basketball_ncaab_championship_winner
  | boxing_boxing
  | golf_masters_tournament_winner
  | golf_pga_championship_winner
  | golf_the_open_championship_winner
  | golf_us_open_winner
  | icehockey_nhl
  | icehockey_nhl_championship_winner
  | icehockey_nhl_preseason
  | mma_mixed_martial_arts
  | politics_us_presidential_election_winner
  | rugbyleague_nrl
  | rugbyleague_nrl_state_of_origin
  | rugbyunion_six_nations
  | soccer_africa_cup_of_nations
  | soccer_concacaf_gold_cup
  | soccer_concacaf_leagues_cup
  | soccer_efl_champ
  | soccer_england_efl_cup
  | soccer_epl
  | soccer_fa_cup
  | soccer_fifa_club_world_cup
  | soccer_fifa_world_cup
  | soccer_fifa_world_cup_qualifiers_europe
  | soccer_fifa_world_cup_qualifiers_south_america
  | soccer_fifa_world_cup_winner
  | soccer_fifa_world_cup_womens
  | soccer_france_ligue_one
  | soccer_germany_bundesliga
  | soccer_italy_serie_a
  | soccer_spain_la_liga
  | soccer_uefa_champs_league
  | soccer_uefa_champs_league_qualification
  | soccer_uefa_euro_qualification
  | soccer_uefa_europa_conference_league
  | soccer_uefa_europa_league
  | soccer_uefa_european_championship
  | soccer_uefa_nations_league
  | soccer_usa_mls
  | tennis_atp_aus_open_singles
  | tennis_atp_canadian_open
  | tennis_atp_china_open
  | tennis_atp_cincinnati_open
  | tennis_atp_dubai
  | tennis_atp_french_open
  | tennis_arp_indian_wells
  | tennis_atp_italian_open
  | tennis_atp_madrid_open
  | tennis_atp_miami_open
  | tennis_atp_monte_carlo_masters
  | tennis_atp_paris_masters
  | tennis_atp_qatar_open
  | tennis_atp_shanghai_masters
  | tennis_atp_us_open
  | tennis_atp_wimbledon
  | tennis_wta_aus_open_singles
  | tennis_wta_canadian_open
  | tennis_wta_china_open
  | tennis_wta_cincinnati_open
  | tennis_wta_dubai
  | tennis_wta_french_open
  | tennis_wta_indian_wells
  | tennis_wta_italian_open
  | tennis_wta_madrid_open
  | tennis_wta_miami_open
  | tennis_wta_qatar_opem
  | tennis_wta_us_open
  | tennis_wta_wimbledon
  | tennis_wta_wuhan_open
  | upcoming
deriving DecidableEq, Repr

/-- The string value attached to each enum member in config.py.  Note the
source mismatches kept faithfully: member basketball_ncaa has value
"baseball_ncaa", member baskbetball_nba has value "basketball_nba",
member tennis_arp_indian_wells has value "tennis_atp_indian_wells",
member tennis_wta_qatar_opem has value "tennis_wta_qatar_open". -/
def Sports.value : Sports → String
  | .americanfootball_cfl => "americanfootball_cfl"
  | .americanfootball_ncaaf => "americanfootball_ncaaf"
  | .americanfootball_ncaaf_championship_winner => "americanfootball_ncaaf_championship_winner"
  | .americanfootball_nfl => "americanfootball_nfl"
  | .americanfootball_nfl_preseason => "americanfootball_nfl_preseason"
  | .americanfootball_nfl_super_bowl_winner => "americanfootball_nfl_super_bowl_winner"
  | .americanfootball_ufl => "americanfootball_ufl"
  | .baseball_milb => "baseball_milb"
  | .baseball_mlb => "baseball_mlb"
  | .baseball_mlb_preseason => "baseball_mlb_preseason"
  | .baseball_mlb_world_series_winner => "baseball_mlb_world_series_winner"
  | .basketball_ncaa => "baseball_ncaa"
  | .baskbetball_nba => "basketball_nba"
  | .basketball_nba_championship_winner => "basketball_nba_championship_winner"
  | .basketball_nba_preseason => "basketball_nba_preseason"
  | .basketball_nba_summer_league => "basketball_nba_summer_league"
  | .basketball_ncaab => "basketball_ncaab"
  | .basketball_ncaab_championship_winner => "basketball_ncaab_championship_winner"
  | .boxing_boxing => "boxing_boxing"
  | .golf_masters_tournament_winner => "golf_masters_tournament_winner"
  | .golf_pga_championship_winner => "golf_pga_championship_winner"
  | .golf_the_open_championship_winner => "golf_the_open_championship_winner"
  | .golf_us_open_winner => "golf_us_open_winner"
  | .icehockey_nhl => "icehockey_nhl"
  | .icehockey_nhl_championship_winner => "icehockey_nhl_championship_winner"
  | .icehockey_nhl_preseason => "icehockey_nhl_preseason"
  | .mma_mixed_martial_arts => "mma_mixed_martial_arts"
  | .politics_us_presidential_election_winner => "politics_us_presidential_election_winner"
  | .rugbyleague_nrl => "rugbyleague_nrl"
  | .rugbyleague_nrl_state_of_origin => "rugbyleague_nrl_state_of_origin"
  | .rugbyunion_six_nations => "rugbyunion_six_nations"
  | .soccer_africa_cup_of_nations => "soccer_africa_cup_of_nations"
  | .soccer_concacaf_gold_cup => "soccer_concacaf_gold_cup"
  | .soccer_concacaf_leagues_cup => "soccer_concacaf_leagues_cup"
  | .soccer_efl_champ => "soccer_efl_champ"
  | .soccer_england_efl_cup => "soccer_england_efl_cup"
  | .soccer_epl => "soccer_epl"
  | .soccer_fa_cup => "soccer_fa_cup"
  | .soccer_fifa_club_world_cup => "soccer_fifa_club_world_cup"
  | .soccer_fifa_world_cup => "soccer_fifa_world_cup"
  | .soccer_fifa_world_cup_qualifiers_europe => "soccer_fifa_world_cup_qualifiers_europe"
  | .soccer_fifa_world_cup_qualifiers_south_america => "soccer_fifa_world_cup_qualifiers_south_america"
  | .soccer_fifa_world_cup_winner => "soccer_fifa_world_cup_winner"
  | .soccer_fifa_world_cup_womens => "soccer_fifa_world_cup_womens"
  | .soccer_france_ligue_one => "soccer_france_ligue_one"
  | .soccer_germany_bundesliga => "soccer_germany_bundesliga"
  | .soccer_italy_serie_a => "soccer_italy_serie_a"
  | .soccer_spain_la_liga => "soccer_spain_la_liga"
  | .soccer_uefa_champs_league => "soccer_uefa_champs_league"
  | .soccer_uefa_champs_league_qualification => "soccer_uefa_champs_league_qualification"
  | .soccer_uefa_euro_qualification => "soccer_uefa_euro_qualification"
  | .soccer_uefa_europa_conference_league => "soccer_uefa_europa_conference_league"
  | .soccer_uefa_europa_league => "soccer_uefa_europa_league"
  | .soccer_uefa_european_championship => "soccer_uefa_european_championship"
  | .soccer_uefa_nations_league => "soccer_uefa_nations_league"
  | .soccer_usa_mls => "soccer_usa_mls"
  | .tennis_atp_aus_open_singles => "tennis_atp_aus_open_singles"
  | .tennis_atp_canadian_open => "tennis_atp_canadian_open"
  | .tennis_atp_china_open => "tennis_atp_china_open"
  | .tennis_atp_cincinnati_open => "tennis_atp_cincinnati_open"
  | .tennis_atp_dubai => "tennis_atp_dubai"
  | .tennis_atp_french_open => "tennis_atp_french_open"
  | .tennis_arp_indian_wells => "tennis_atp_indian_wells"
  | .tennis_atp_italian_open => "tennis_atp_italian_open"
  | .tennis_atp_madrid_open => "tennis_atp_madrid_open"
  | .tennis_atp_miami_open => "tennis_atp_miami_open"
  | .tennis_atp_monte_carlo_masters => "tennis_atp_monte_carlo_masters"
  | .tennis_atp_paris_masters => "tennis_atp_paris_masters"
  | .tennis_atp_qatar_open => "tennis_atp_qatar_open"
  | .tennis_atp_shanghai_masters => "tennis_atp_shanghai_masters"
  | .tennis_atp_us_open => "tennis_atp_us_open"
  | .tennis_atp_wimbledon => "tennis_atp_wimbledon"
  | .tennis_wta_aus_open_singles => "tennis_wta_aus_open_singles"
  | .tennis_wta_canadian_open => "tennis_wta_canadian_open"
  | .tennis_wta_china_open => "tennis_wta_china_open"
  | .tennis_wta_cincinnati_open => "tennis_wta_cincinnati_open"
  | .tennis_wta_dubai => "tennis_wta_dubai"
  | .tennis_wta_french_open => "tennis_wta_french_open"
  | .tennis_wta_indian_wells => "tennis_wta_indian_wells"
  | .tennis_wta_italian_open => "tennis_wta_italian_open"
  | .tennis_wta_madrid_open => "tennis_wta_madrid_open"
  | .tennis_wta_miami_open => "tennis_wta_miami_open"
  | .tennis_wta_qatar_opem => "tennis_wta_qatar_open"
  | .tennis_wta_us_open => "tennis_wta_us_open"
  | .tennis_wta_wimbledon => "tennis_wta_wimbledon"
  | .tennis_wta_wuhan_open => "tennis_wta_wuhan_open"
  | .upcoming => "upcoming"

set_option maxHeartbeats 1000000 in
/-- All members of the Sports enumeration, in declaration order. -/
def Sports.all : List Sports :=
  [.americanfootball_cfl, .americanfootball_ncaaf,
   .americanfootball_ncaaf_championship_winner, .americanfootball_nfl,
   .americanfootball_nfl_preseason, .americanfootball_nfl_super_bowl_winner,
   .americanfootball_ufl, .baseball_milb, .baseball_mlb,
   .baseball_mlb_preseason, .baseball_mlb_world_series_winner,
   .basketball_ncaa, .baskbetball_nba, .basketball_nba_championship_winner,
   .basketball_nba_preseason, .basketball_nba_summer_league,
   .basketball_ncaab, .basketball_ncaab_championship_winner, .boxing_boxing,
   .golf_masters_tournament_winner, .golf_pga_championship_winner,
   .golf_the_open_championship_winner, .golf_us_open_winner, .icehockey_nhl,
   .icehockey_nhl_championship_winner, .icehockey_nhl_preseason,
   .mma_mixed_martial_arts, .politics_us_presidential_election_winner,
   .rugbyleague_nrl, .rugbyleague_nrl_state_of_origin,
   .rugbyunion_six_nations, .soccer_africa_cup_of_nations,
   .soccer_concacaf_gold_cup, .soccer_concacaf_leagues_cup,
   .soccer_efl_champ, .soccer_england_efl_cup, .soccer_epl, .soccer_fa_cup,
   .soccer_fifa_club_world_cup, .soccer_fifa_world_cup,
   .soccer_fifa_world_cup_qualifiers_europe,
   .soccer_fifa_world_cup_qualifiers_south_america,
   .soccer_fifa_world_cup_winner, .soccer_fifa_world_cup_womens,
   .soccer_france_ligue_one, .soccer_germany_bundesliga,
   .soccer_italy_serie_a, .soccer_spain_la_liga, .soccer_uefa_champs_league,
   .soccer_uefa_champs_league_qualification, .soccer_uefa_euro_qualification,
   .soccer_uefa_europa_conference_league, .soccer_uefa_europa_league,
   .soccer_uefa_european_championship, .soccer_uefa_nations_league,
   .soccer_usa_mls, .tennis_atp_aus_open_singles, .tennis_atp_canadian_open,
   .tennis_atp_china_open, .tennis_atp_cincinnati_open, .tennis_atp_dubai,
   .tennis_atp_french_open, .tennis_arp_indian_wells,
   .tennis_atp_italian_open, .tennis_atp_madrid_open,
   .tennis_atp_miami_open, .tennis_atp_monte_carlo_masters,
   .tennis_atp_paris_masters, .tennis_atp_qatar_open,
   .tennis_atp_shanghai_masters, .tennis_atp_us_open, .tennis_atp_wimbledon,
   .tennis_wta_aus_open_singles, .tennis_wta_canadian_open,
   .tennis_wta_china_open, .tennis_wta_cincinnati_open, .tennis_wta_dubai,
   .tennis_wta_french_open, .tennis_wta_indian_wells,
   .tennis_wta_italian_open, .tennis_wta_madrid_open,
   .tennis_wta_miami_open, .tennis_wta_qatar_opem, .tennis_wta_us_open,
   .tennis_wta_wimbledon, .tennis_wta_wuhan_open, .upcoming]

/-- Pydantic coerces a string into an enum-typed field by value; this is
the by-value lookup used to validate a sport identifier. -/
def Sports.ofValue (s : String) : Option Sports :=
  Sports.all.find? (fun c => c.value == s)

/-- The sport catalog: the set of member values of the Sports enum
(the sentinel "upcoming" is itself one of the values). -/
def Sports.catalog : List String :=
  Sports.all.map Sports.value

lemma Sports.mem_all (c : Sports) : c ∈ Sports.all := by
  cases c <;> decide

/-- The Sport model of config.py lines 129-136, after field validation:
api_key is a string (defaulted from settings), key is a validated member
of the Sports enum, active and has_outrights default to False. -/
structure Sport where
  api_key : String
  key : Sports
  group : String
  title : String
  description : String
  active : Bool
  has_outrights : Bool
deriving DecidableEq, Repr

/-- A dynamic Python value, as pydantic fields can hold: None, str, int,
bool, list, a validated Sports enum member, or a Sport model instance.
Needed because pydantic stores unvalidated defaults verbatim, so a field
annotated list[str] can in fact hold the string "us". -/
inductive Val where
  | vNone
  | vStr (s : String)
  | vInt (n : Int)
  | vBool (b : Bool)
  | vList (xs : List Val)
  | vSport (c : Sports)
  | vSportRec (sp : Sport)

/-- Python truthiness: None, "", 0, False and [] are falsy; enum members
and model instances define no custom bool conversion, so they are always
truthy. -/
def Val.falsy : Val → Bool
  | .vNone => true
  | .vStr s => s = ""
  | .vInt n => n = 0
  | .vBool b => !b
  | .vList xs => xs.isEmpty
  | .vSport _ => false
  | .vSportRec _ => false

/-- The check_sport model validator of config.py lines 138-144: after
field validation, raise "Sport not supported" when self.key is falsy,
else return the instance unchanged. -/
def Sport.check_sport (sp : Sport) : Except String Sport :=
  if (Val.vSport sp.key).falsy then Except.error "Sport not supported"
  else Except.ok sp

/-- The Settings model of config.py lines 105-127: metadata defaults,
debug default False, and odds_api_key required from the environment
under the alias ODDS_API_KEY, frozen. -/
structure Settings where
  project_name : String
  version : String
  description : String
  api_v1_str : String
  debug : Bool
  odds_api_key : String
deriving DecidableEq, Repr

/-- Pydantic-settings boolean coercion of an environment string. -/
def parseEnvBool (s : String) : Except String Bool :=
  let l := s.toLower
  if l = "true" ∨ l = "1" ∨ l = "yes" ∨ l = "on" ∨ l = "y" ∨ l = "t" then
    Except.ok true
  else if l = "false" ∨ l = "0" ∨ l = "no" ∨ l = "off" ∨ l = "n" ∨ l = "f" then
    Except.ok false
  else Except.error "Input should be a valid boolean"

/-- Settings construction (the module-level Settings() call of config.py
line 127).  The argument env is the merged environment: process
variables overlaid on the .env fallback file, with case-sensitive names.
Construction fails when ODDS_API_KEY is absent; other fields fall back
to their declared defaults. -/
def Settings.load (env : String → Option String) : Except String Settings :=
  match env "ODDS_API_KEY" with
  | none => Except.error "odds_api_key: Field required"
  | some k =>
    match (match env "debug" with
           | none => Except.ok false
           | some s => parseEnvBool s) with
    | Except.error e => Except.error e
    | Except.ok dbg =>
      Except.ok
        { project_name := (env "project_name").getD "ArbitrageEngine"
          version := (env "version").getD "0.1.0"
          description :=
            (env "description").getD
              "Odds Engine/API for calculating sports betting odds"
          api_v1_str := (env "api_v1_str").getD "/api/v1"
          debug := dbg
          odds_api_key := k }

/-- Fields of Settings declared with frozen=True. -/
def Settings.frozenFields : List String := ["odds_api_key"]

/-- Post-construction attribute assignment on a Settings instance:
assigning a frozen field raises, other fields are updated. -/
def Settings.assign (st : Settings) (n : String) (v : Val) :
    Except String Settings :=
  if n ∈ Settings.frozenFields then Except.error (n ++ " is frozen")
  else
    match n, v with
    | "project_name", Val.vStr s => Except.ok { st with project_name := s }
    | "version", Val.vStr s => Except.ok { st with version := s }
    | "description", Val.vStr s => Except.ok { st with description := s }
    | "api_v1_str", Val.vStr s => Except.ok { st with api_v1_str := s }
    | "debug", Val.vBool b => Except.ok { st with debug := b }
    | _, _ => Except.error "invalid assignment"

/-- First-match lookup in an input mapping (a Python dict of wire-alias
keys to values; duplicate keys cannot occur in a dict, and first match
is taken here). -/
def lookupKey : List (String × Val) → String → Option Val
  | [], _ => none
  | (k, w) :: t, n => if k = n then some w else lookupKey t n

/-- Dict assignment: replace the first binding of the key, or append the
binding when the key is absent. -/
def setKey : List (String × Val) → String → Val → List (String × Val)
  | [], n, v => [(n, v)]
  | (k, w) :: t, n, v =>
    if k = n then (n, v) :: t else (k, w) :: setKey t n v

/-- The pydantic type annotations appearing on the request-model fields
of config.py. -/
inductive VType where
  | sportsTy
  | strTy
  | optStrTy
  | listStrTy
  | optListStrTy
  | optBoolTy
  | optIntRange (lo hi : Int)

/-- Validation error for a sport identifier outside the catalog; the
message names the invalid value, as pydantic attaches the offending
input to the enum error. -/
def sportErr (s : String) : String :=
  "Input should be a member of the Sports enumeration; the invalid value is " ++ s

/-- Every element of the list is a string value. -/
def allStr (xs : List Val) : Bool :=
  xs.all (fun v => match v with | Val.vStr _ => true | _ => false)

/-- Validation of a caller-supplied value against the declared field
type, mirroring pydantic v2: a string is coerced into the Sports enum by
value; Optional types accept None; list[str] accepts only a list of
strings; ge/le bounds on Optional[int] apply to supplied integers. -/
def validateVType : VType → Val → Except String Val
  | VType.sportsTy, Val.vStr s =>
    match Sports.ofValue s with
    | some c => Except.ok (Val.vSport c)
    | none => Except.error (sportErr s)
  | VType.sportsTy, Val.vSport c => Except.ok (Val.vSport c)
  | VType.sportsTy, _ => Except.error "Input should be an instance of Sports"
  | VType.strTy, Val.vStr s => Except.ok (Val.vStr s)
  | VType.strTy, _ => Except.error "Input should be a valid string"
  | VType.optStrTy, Val.vNone => Except.ok Val.vNone
  | VType.optStrTy, Val.vStr s => Except.ok (Val.vStr s)
  | VType.optStrTy, _ => Except.error "Input should be a valid string"
  | VType.listStrTy, Val.vList xs =>
    if allStr xs then Except.ok (Val.vList xs)
    else Except.error "Input should be a valid list of strings"
  | VType.listStrTy, _ => Except.error "Input should be a valid list"
  | VType.optListStrTy, Val.vNone => Except.ok Val.vNone
  | VType.optListStrTy, Val.vList xs =>
    if allStr xs then Except.ok (Val.vList xs)
    else Except.error "Input should be a valid list of strings"
  | VType.optListStrTy, _ => Except.error "Input should be a valid list"
  | VType.optBoolTy, Val.vNone => Except.ok Val.vNone
  | VType.optBoolTy, Val.vBool b => Except.ok (Val.vBool b)
  | VType.optBoolTy, _ => Except.error "Input should be a valid boolean"
  | VType.optIntRange _ _, Val.vNone => Except.ok Val.vNone
  | VType.optIntRange lo hi, Val.vInt n =>
    if n < lo then
      Except.error "Input should be greater than or equal to the lower bound"
    else if hi < n then
      Except.error "Input should be less than or equal to the upper bound"
    else Except.ok (Val.vInt n)
  | VType.optIntRange _ _, _ => Except.error "Input should be a valid integer"

/-- One pydantic Field declaration: stored field name, wire alias (equal
to the name when no alias is declared), required flag (Field(...)),
default value (stored verbatim when the field is not supplied — pydantic
does not validate defaults), frozen flag, declared type, and the
field-level validator (mode after) when the class declares one. -/
structure FieldSpec where
  name : String
  aliasName : String
  required : Bool := false
  default : Val := Val.vNone
  frozen : Bool := false
  vtype : VType
  fcheck : Val → Except String Val := fun v => Except.ok v

/-- One request-model class: its fields in declaration order, and
whether it declares the set_sport_from_enum mode="before" model
validator. -/
structure ModelSpec where
  fields : List FieldSpec
  sportCoercion : Bool := false

/-- The set_sport_from_enum validator (mode="before"): when the class
declares it and the value bound to "sport" is a Sport instance, replace
it with that instance's key value; otherwise the input is unchanged. -/
def runPre (spec : ModelSpec) (inp : List (String × Val)) :
    List (String × Val) :=
  if spec.sportCoercion then
    match lookupKey inp "sport" with
    | some (Val.vSportRec sp) => setKey inp "sport" (Val.vStr sp.key.value)
    | _ => inp
  else inp

/-- Field-by-field validation in declaration order: a supplied value is
validated against the declared type and then the field validator; an
absent required field fails; an absent optional field takes its default
verbatim, bypassing both the type validation and the field validator. -/
def buildFields : List FieldSpec → List (String × Val) →
    Except String (List (String × Val))
  | [], _ => Except.ok []
  | f :: fs, inp =>
    match lookupKey inp f.aliasName with
    | some v =>
      match validateVType f.vtype v with
      | Except.error e => Except.error e
      | Except.ok v₁ =>
        match f.fcheck v₁ with
        | Except.error e => Except.error e
        | Except.ok v₂ =>
          match buildFields fs inp with
          | Except.error e => Except.error e
          | Except.ok rest => Except.ok ((f.name, v₂) :: rest)
    | none =>
      if f.required then Except.error (f.name ++ ": Field required")
      else
        match buildFields fs inp with
        | Except.error e => Except.error e
        | Except.ok rest => Except.ok ((f.name, f.default) :: rest)

/-- Construction of a request model from a caller input mapping: the
mode="before" model validator first, then field validation. -/
def buildModel (spec : ModelSpec) (inp : List (String × Val)) :
    Except String (List (String × Val)) :=
  buildFields spec.fields (runPre spec inp)

/-- The value stored under a field name in a successfully constructed
model, or none when construction failed or the field does not exist. -/
def getOk (r : Except String (List (String × Val))) (n : String) :
    Option Val :=
  match r with
  | Except.ok o => lookupKey o n
  | Except.error _ => none

/-- Whether construction succeeded. -/
def buildOk (r : Except String (List (String × Val))) : Bool :=
  match r with
  | Except.ok _ => true
  | Except.error _ => false

/-- Post-construction attribute assignment on a constructed model:
assigning a field declared frozen=True raises; other declared fields
are updated without validation (pydantic default). -/
def assignField (spec : ModelSpec) (inst : List (String × Val))
    (n : String) (v : Val) : Except String (List (String × Val)) :=
  match spec.fields.find? (fun g => g.name == n) with
  | some f =>
    if f.frozen then Except.error (n ++ " is frozen")
    else Except.ok (setKey inst n v)
  | none => Except.error ("No field " ++ n)

/-- sport: Sports = Field(..., alias="sport") -/
def sportField : FieldSpec :=
  { name := "sport", aliasName := "sport", required := true,
    vtype := VType.sportsTy }

/-- api_key: str = Field(default=settings.odds_api_key, frozen=True,
repr=False); ak is the process-wide settings key. -/
def apiKeyField (ak : String) : FieldSpec :=
  { name := "api_key", aliasName := "api_key", default := Val.vStr ak,
    frozen := true, vtype := VType.strTy }

/-- regions: list[str] = Field(default="us", alias="region") — the
default is the raw string "us", kept verbatim as in the source. -/
def regionsField : FieldSpec :=
  { name := "regions", aliasName := "region", default := Val.vStr "us",
    vtype := VType.listStrTy }

/-- markets: Optional[str] = Field(default="") — no alias. -/
def marketsField : FieldSpec :=
  { name := "markets", aliasName := "markets", default := Val.vStr "",
    vtype := VType.optStrTy }

/-- dateFormat: Optional[list[str]] = Field(default="iso",
alias="date_format") — the default is the raw string "iso". -/
def dateFormatField : FieldSpec :=
  { name := "dateFormat", aliasName := "date_format",
    default := Val.vStr "iso", vtype := VType.optListStrTy }

/-- oddsFormat: Optional[str] = Field(default="", alias="odds_format") -/
def oddsFormatField : FieldSpec :=
  { name := "oddsFormat", aliasName := "odds_format",
    default := Val.vStr "", vtype := VType.optStrTy }

/-- eventIds: Optional[list[str]] = Field(default="", alias="event_id") -/
def eventIdsField : FieldSpec :=
  { name := "eventIds", aliasName := "event_id", default := Val.vStr "",
    vtype := VType.optListStrTy }

/-- bookmakers: Optional[str] = Field(default="", alias="bookmaker") -/
def bookmakersField : FieldSpec :=
  { name := "bookmakers", aliasName := "bookmaker",
    default := Val.vStr "", vtype := VType.optStrTy }

/-- eventId: str = Field(..., alias="event_id") — the required event
identifier of the single-event models. -/
def eventIdField : FieldSpec :=
  { name := "eventId", aliasName := "event_id", required := true,
    vtype := VType.strTy }

/-- date: str = Field(..., alias="date") of the historical models. -/
def dateField : FieldSpec :=
  { name := "date", aliasName := "date", required := true,
    vtype := VType.strTy }

/-- An un-aliased Optional[str] field with default "" (commenceTimeFrom,
commenceTimeTo). -/
def optStrField (n : String) : FieldSpec :=
  { name := n, aliasName := n, default := Val.vStr "",
    vtype := VType.optStrTy }

/-- An un-aliased Optional[bool] field with default False (the include*
flags). -/
def optBoolField (n : String) : FieldSpec :=
  { name := n, aliasName := n, default := Val.vBool false,
    vtype := VType.optBoolTy }

/-- The validate_days_from field validator of Scores (config.py lines
178-184): raise when not 1 <= daysFrom <= 3.  Comparing None against an
int raises a TypeError in Python, modelled as an error here; the
validator only runs on supplied values. -/
def daysFromCheck : Val → Except String Val
  | Val.vInt n =>
    if ¬(1 ≤ n ∧ n ≤ 3) then
      Except.error "daysFrom must be between 1 and 3"
    else Except.ok (Val.vInt n)
  | _ => Except.error "TypeError: comparison not supported between NoneType and int"

/-- daysFrom: Optional[int] = Field(default=None, ge=1, le=3) together
with its validate_days_from field validator. -/
def daysFromField : FieldSpec :=
  { name := "daysFrom", aliasName := "daysFrom", default := Val.vNone,
    vtype := VType.optIntRange 1 3, fcheck := daysFromCheck }

/-- The Odds request model, config.py lines 147-169. -/
def Odds (ak : String) : ModelSpec :=
  { sportCoercion := true,
    fields :=
      [sportField, apiKeyField ak, regionsField, marketsField,
       dateFormatField, oddsFormatField, eventIdsField, bookmakersField,
       optStrField "commenceTimeFrom", optStrField "commenceTimeTo",
       optBoolField "includeLinks", optBoolField "includeSids",
       optBoolField "includeBetLimits",
       optBoolField "includeRotationNumbers"] }

/-- The Scores request model, config.py lines 171-192. -/
def Scores (ak : String) : ModelSpec :=
  { sportCoercion := true,
    fields :=
      [sportField, apiKeyField ak, daysFromField, dateFormatField,
       eventIdsField] }

/-- The Events request model, config.py lines 194-209. -/
def Events (ak : String) : ModelSpec :=
  { sportCoercion := true,
    fields :=
      [sportField, apiKeyField ak, dateFormatField, eventIdsField,
       optStrField "commenceTimeFrom", optStrField "commenceTimeTo",
       optBoolField "includeRotationNumbers"] }

/-- The EventOdds request model, config.py lines 211-234. -/
def EventOdds (ak : String) : ModelSpec :=
  { sportCoercion := true,
    fields :=
      [sportField, apiKeyField ak, regionsField, marketsField,
       dateFormatField, oddsFormatField, eventIdField, bookmakersField,
       optStrField "commenceTimeFrom", optStrField "commenceTimeTo",
       optBoolField "includeLinks", optBoolField "includeSids",
       optBoolField "includeBetLimits",
       optBoolField "includeRotationNumbers",
       optBoolField "includeMultipliers"] }

/-- The EventMarkets request model, config.py lines 236-251. -/
def EventMarkets (ak : String) : ModelSpec :=
  { sportCoercion := true,
    fields :=
      [sportField, eventIdField, apiKeyField ak, regionsField,
       bookmakersField, dateFormatField] }

/-- The Participants request model, config.py lines 253-263. -/
def Participants (ak : String) : ModelSpec :=
  { sportCoercion := true, fields := [sportField, apiKeyField ak] }

/-- The HistoricalOdds request model, config.py lines 265-288. -/
def HistoricalOdds (ak : String) : ModelSpec :=
  { sportCoercion := true,
    fields :=
      [sportField, apiKeyField ak, regionsField, marketsField,
       dateFormatField, oddsFormatField, eventIdsField, bookmakersField,
       optStrField "commenceTimeFrom", optStrField "commenceTimeTo",
       optBoolField "includeLinks", optBoolField "includeSids",
       optBoolField "includeBetLimits",
       optBoolField "includeRotationNumbers", dateField] }

/-- The HistoricalEvents request model, config.py lines 290-306. -/
def HistoricalEvents (ak : String) : ModelSpec :=
  { sportCoercion := true,
    fields :=
      [sportField, apiKeyField ak, dateField, dateFormatField,
       eventIdsField, optStrField "commenceTimeFrom",
       optStrField "commenceTimeTo",
       optBoolField "includeRotationNumbers"] }

/-- The HistoricalEventOdds request model, config.py lines 308-325.
This class declares no set_sport_from_enum validator, so
sportCoercion := false. -/
def HistoricalEventOdds (ak : String) : ModelSpec :=
  { sportCoercion := false,
    fields :=
      [sportField, apiKeyField ak, regionsField, eventIdField, dateField,
       marketsField, dateFormatField, oddsFormatField, bookmakersField,
       optStrField "commenceTimeFrom", optStrField "commenceTimeTo",
       optBoolField "includeLinks", optBoolField "includeSids",
       optBoolField "includeBetLimits",
       optBoolField "includeRotationNumbers",
       optBoolField "includeMultipliers"] }

/-- A reachable Postgres server, reduced to its pg_database catalog of
database names. -/
structure PgServer where
  pg_database : List String

/-- The rows returned by
SELECT 1 FROM pg_database WHERE datname = :db_name. -/
def runDatnameQuery (srv : PgServer) (db_name : String) : List Nat :=
  srv.pg_database.filterMap (fun d => if d = db_name then some 1 else none)

/-- result.scalar(): the first column of the first row, or None when the
result set is empty. -/
def scalarResult (rows : List Nat) : Option Nat := rows.head?

/-- The database_exists coroutine of create_db.py lines 9-17: connect
(None models an unreachable server, whose connection error propagates),
run the catalog query, and return whether the scalar is not None. -/
def database_exists (conn : Option PgServer) (db_name : String) :
    Except String Bool :=
  match conn with
  | none => Except.error "connection failed: could not connect to server"
  | some srv =>
    Except.ok (scalarResult (runDatnameQuery srv db_name)).isSome

lemma sports_ofValue_mem (s : String) (h : s ∈ Sports.catalog) :
    ∃ c, Sports.ofValue s = some c ∧ Sports.value c = s := by
  unfold Sports.catalog at h
  obtain ⟨c, hc, hv⟩ := List.mem_map.mp h
  have hsome : (Sports.all.find? (fun c => c.value == s)).isSome := by
    rw [List.find?_isSome]
    exact ⟨c, hc, by simp [hv]⟩
  obtain ⟨c', hc'⟩ := Option.isSome_iff_exists.mp hsome
  refine ⟨c', hc', ?_⟩
  have hp := List.find?_some hc'
  simpa using hp

lemma sports_ofValue_none (s : String) (h : s ∉ Sports.catalog) :
    Sports.ofValue s = none := by
  unfold Sports.ofValue
  rw [List.find?_eq_none]
  intro c hc hbc
  exact h (List.mem_map.mpr ⟨c, hc, by simpa using hbc⟩)

lemma lookupKey_setKey_ne (l : List (String × Val)) (m n : String)
    (v : Val) (h : n ≠ m) : lookupKey (setKey l m v) n = lookupKey l n := by
  induction l with
  | nil =>
    simp only [setKey, lookupKey]
    rw [if_neg (fun hh => h hh.symm)]
  | cons p t ih =>
    obtain ⟨k, w⟩ := p
    by_cases hk : k = m
    · subst hk
      have h' : ¬(k = n) := fun hh => h (hh.symm.trans rfl)
      simp only [setKey, if_pos rfl, lookupKey, if_neg h']
    · have hs : setKey ((k, w) :: t) m v = (k, w) :: setKey t m v := by
        simp only [setKey, if_neg hk]
      rw [hs]
      simp only [lookupKey]
      by_cases hkn : k = n
      · simp only [if_pos hkn]
      · simp only [if_neg hkn]
        exact ih

lemma lookupKey_runPre (spec : ModelSpec) (inp : List (String × Val))
    (n : String) (h : n ≠ "sport") :
    lookupKey (runPre spec inp) n = lookupKey inp n := by
  unfold runPre
  cases hsc : spec.sportCoercion
  · simp
  · simp only [if_true]
    cases hv : lookupKey inp "sport" with
    | none => rfl
    | some v =>
      cases v
      case vSportRec sp => exact lookupKey_setKey_ne inp "sport" n _ h
      all_goals rfl

lemma buildFields_default (f : FieldSpec) :
    ∀ (fs : List FieldSpec) (inp out : List (String × Val)),
      buildFields fs inp = Except.ok out →
      fs.find? (fun g => g.name == f.name) = some f →
      lookupKey inp f.aliasName = none →
      f.required = false →
      lookupKey out f.name = some f.default := by
  intro fs
  induction fs with
  | nil =>
    intro inp out h hf hl hr
    simp at hf
  | cons g fs ih =>
    intro inp out h hf hl hr
    by_cases hg : g.name = f.name
    · have hgf : g = f := by
        rw [List.find?_cons_of_pos _ (by simp [hg])] at hf
        exact Option.some.inj hf
      subst hgf
      simp only [buildFields, hl] at h
      rw [hr] at h
      rw [if_neg Bool.false_ne_true] at h
      cases hb : buildFields fs inp with
      | error e => rw [hb] at h; exact Except.noConfusion h
      | ok rest =>
        rw [hb] at h
        injection h with h2
        subst h2
        simp [lookupKey]
    · have hf' : fs.find? (fun g => g.name == f.name) = some f := by
        rw [List.find?_cons_of_neg _ (by simp [hg])] at hf
        exact hf
      simp only [buildFields] at h
      split at h
      · split at h
        · exact Except.noConfusion h
        · split at h
          · exact Except.noConfusion h
          · split at h
            · exact Except.noConfusion h
            · next rest hb =>
                injection h with h3
                subst h3
                simp only [lookupKey]
                rw [if_neg hg]
                exact ih inp rest hb hf' hl hr
      · split at h
        · exact Except.noConfusion h
        · split at h
          · exact Except.noConfusion h
          · next rest hb =>
              injection h with h3
              subst h3
              simp only [lookupKey]
              rw [if_neg hg]
              exact ih inp rest hb hf' hl hr

lemma coerce_agree (spec : ModelSpec) (h : spec.sportCoercion = true)
    (sp : Sport) (rest : List (String × Val)) :
    buildModel spec (("sport", Val.vSportRec sp) :: rest) =
      buildModel spec (("sport", Val.vStr sp.key.value) :: rest) := by
  unfold buildModel runPre
  rw [h]
  simp [lookupKey, setKey]

lemma build_sport_error (spec : ModelSpec) (fs' : List FieldSpec)
    (s : String) (rest : List (String × Val))
    (hf : spec.fields = sportField :: fs')
    (hn : Sports.ofValue s = none) :
    buildModel spec (("sport", Val.vStr s) :: rest) =
      Except.error (sportErr s) := by
  unfold buildModel
  have hpre : runPre spec (("sport", Val.vStr s) :: rest) =
      ("sport", Val.vStr s) :: rest := by
    unfold runPre
    cases hsc : spec.sportCoercion
    · simp
    · simp [lookupKey]
  rw [hpre, hf]
  simp [buildFields, lookupKey, sportField, validateVType, hn]

lemma api_key_default_of_spec (spec : ModelSpec) (ak : String)
    (hf : spec.fields.find? (fun g => g.name == "api_key") =
      some (apiKeyField ak)) :
    ∀ inp out, lookupKey inp "api_key" = none →
      buildModel spec inp = Except.ok out →
      lookupKey out "api_key" = some (Val.vStr ak) := by
  intro inp out hl hb
  have hl' : lookupKey (runPre spec inp) "api_key" = none := by
    rw [lookupKey_runPre spec inp "api_key" (by decide)]
    exact hl
  exact buildFields_default (apiKeyField ak) spec.fields (runPre spec inp)
    out hb hf hl' rfl

lemma scalar_query (l : List String) (n : String) :
    (scalarResult
      (l.filterMap (fun d => if d = n then some 1 else none))).isSome =
      decide (n ∈ l) := by
  induction l with
  | nil => rfl
  | cons d t ih =>
    by_cases hd : d = n
    · subst hd
      simp [scalarResult, List.filterMap_cons]
    · have hnd : ¬(n = d) := fun hh => hd hh.symm
      simp only [List.filterMap_cons, if_neg hd]
      rw [ih]
      simp [List.mem_cons, hnd]

/-- C2: constructing Odds with sport="soccer_epl" and no other caller
fields yields markets = "" and api_key = the settings key as claimed,
but regions holds the raw unvalidated default string "us", not the list
["us"]: pydantic does not validate field defaults, so the default "us"
contradicts the declared type list[str].  dateFormat likewise holds the
raw string "iso". -/
theorem c2_odds_defaults (ak : String) :
    getOk (buildModel (Odds ak) [("sport", Val.vStr "soccer_epl")])
        "regions" = some (Val.vStr "us") ∧
    getOk (buildModel (Odds ak) [("sport", Val.vStr "soccer_epl")])
        "dateFormat" = some (Val.vStr "iso") ∧
    getOk (buildModel (Odds ak) [("sport", Val.vStr "soccer_epl")])
        "markets" = some (Val.vStr "") ∧
    getOk (buildModel (Odds ak) [("sport", Val.vStr "soccer_epl")])
        "api_key" = some (Val.vStr ak) ∧
    Val.vStr "us" ≠ Val.vList [Val.vStr "us"] :=
  ⟨rfl, rfl, rfl, rfl, fun hcontra => Val.noConfusion hcontra⟩

/-- C1 (amended): for the eight request models that declare the
set_sport_from_enum mode="before" validator (Odds, Scores, Events,
EventOdds, EventMarkets, Participants, HistoricalOdds,
HistoricalEvents), binding a Sport record to the sport field yields
exactly the same constructed model as supplying the raw identifier
string sp.key.value; HistoricalEventOdds is excluded (see the
counterexample). -/
theorem c1_sport_coercion_agree (ak : String) (sp : Sport)
    (rest : List (String × Val)) :
    buildModel (Odds ak) (("sport", Val.vSportRec sp) :: rest) =
      buildModel (Odds ak) (("sport", Val.vStr sp.key.value) :: rest) ∧
    buildModel (Scores ak) (("sport", Val.vSportRec sp) :: rest) =
      buildModel (Scores ak) (("sport", Val.vStr sp.key.value) :: rest) ∧
    buildModel (Events ak) (("sport", Val.vSportRec sp) :: rest) =
      buildModel (Events ak) (("sport", Val.vStr sp.key.value) :: rest) ∧
    buildModel (EventOdds ak) (("sport", Val.vSportRec sp) :: rest) =
      buildModel (EventOdds ak) (("sport", Val.vStr sp.key.value) :: rest) ∧
    buildModel (EventMarkets ak) (("sport", Val.vSportRec sp) :: rest) =
      buildModel (EventMarkets ak) (("sport", Val.vStr sp.key.value) :: rest) ∧
    buildModel (Participants ak) (("sport", Val.vSportRec sp) :: rest) =
      buildModel (Participants ak) (("sport", Val.vStr sp.key.value) :: rest) ∧
    buildModel (HistoricalOdds ak) (("sport", Val.vSportRec sp) :: rest) =
      buildModel (HistoricalOdds ak) (("sport", Val.vStr sp.key.value) :: rest) ∧
    buildModel (HistoricalEvents ak) (("sport", Val.vSportRec sp) :: rest) =
      buildModel (HistoricalEvents ak)
        (("sport", Val.vStr sp.key.value) :: rest) :=
  ⟨coerce_agree _ rfl sp rest, coerce_agree _ rfl sp rest,
   coerce_agree _ rfl sp rest, coerce_agree _ rfl sp rest,
   coerce_agree _ rfl sp rest, coerce_agree _ rfl sp rest,
   coerce_agree _ rfl sp rest, coerce_agree _ rfl sp rest⟩

/-- C1 (counterexample): HistoricalEventOdds declares no
set_sport_from_enum validator, so binding a Sport record to its sport
field fails validation while the raw identifier string succeeds — the
two constructions do not yield the same normalized sport identifier. -/
theorem c1_hist_event_odds_cex :
    getOk (buildModel (HistoricalEventOdds "k")
        [("sport", Val.vSportRec
            ⟨"k", Sports.soccer_epl, "Soccer", "EPL",
             "English Premier League", false, false⟩),
         ("event_id", Val.vStr "e1"), ("date", Val.vStr "2024-01-01")])
      "sport" = none ∧
    getOk (buildModel (HistoricalEventOdds "k")
        [("sport", Val.vStr "soccer_epl"),
         ("event_id", Val.vStr "e1"), ("date", Val.vStr "2024-01-01")])
      "sport" = some (Val.vSport Sports.soccer_epl) ∧
    (none : Option Val) ≠ some (Val.vSport Sports.soccer_epl) :=
  ⟨rfl, rfl, fun hcontra => Option.noConfusion hcontra⟩

/-- C3 (counterexample): frozen=True only forbids post-construction
assignment; a caller-supplied api_key at construction overrides the
settings default, here "attacker" over settings key "secret". -/
theorem c3_api_key_override_cex :
    getOk (buildModel (Odds "secret")
        [("sport", Val.vStr "soccer_epl"),
         ("api_key", Val.vStr "attacker")]) "api_key" =
      some (Val.vStr "attacker") ∧
    Val.vStr "attacker" ≠ Val.vStr "secret" := by
  refine ⟨rfl, ?_⟩
  intro hcontra
  injection hcontra with hs
  exact absurd hs (by decide)

/-- C3 (amended): for every request model, when the caller does not
supply api_key the constructed record carries the settings key, and the
field is frozen against post-construction assignment; a caller-supplied
api_key at construction, however, does override the default. -/
theorem c3_api_key_settings_default_frozen (ak : String) :
    (∀ inp out, lookupKey inp "api_key" = none →
       buildModel (Odds ak) inp = Except.ok out →
       lookupKey out "api_key" = some (Val.vStr ak)) ∧
    (∀ inst v, assignField (Odds ak) inst "api_key" v =
       Except.error "api_key is frozen") ∧
    (∀ inp out, lookupKey inp "api_key" = none →
       buildModel (Scores ak) inp = Except.ok out →
       lookupKey out "api_key" = some (Val.vStr ak)) ∧
    (∀ inst v, assignField (Scores ak) inst "api_key" v =
       Except.error "api_key is frozen") ∧
    (∀ inp out, lookupKey inp "api_key" = none →
       buildModel (Events ak) inp = Except.ok out →
       lookupKey out "api_key" = some (Val.vStr ak)) ∧
    (∀ inst v, assignField (Events ak) inst "api_key" v =
       Except.error "api_key is frozen") ∧
    (∀ inp out, lookupKey inp "api_key" = none →
       buildModel (EventOdds ak) inp = Except.ok out →
       lookupKey out "api_key" = some (Val.vStr ak)) ∧
    (∀ inst v, assignField (EventOdds ak) inst "api_key" v =
       Except.error "api_key is frozen") ∧
    (∀ inp out, lookupKey inp "api_key" = none →
       buildModel (EventMarkets ak) inp = Except.ok out →
       lookupKey out "api_key" = some (Val.vStr ak)) ∧
    (∀ inst v, assignField (EventMarkets ak) inst "api_key" v =
       Except.error "api_key is frozen") ∧
    (∀ inp out, lookupKey inp "api_key" = none →
       buildModel (Participants ak) inp = Except.ok out →
       lookupKey out "api_key" = some (Val.vStr ak)) ∧
    (∀ inst v, assignField (Participants ak) inst "api_key" v =
       Except.error "api_key is frozen") ∧
    (∀ inp out, lookupKey inp "api_key" = none →
       buildModel (HistoricalOdds ak) inp = Except.ok out →
       lookupKey out "api_key" = some (Val.vStr ak)) ∧
    (∀ inst v, assignField (HistoricalOdds ak) inst "api_key" v =
       Except.error "api_key is frozen") ∧
    (∀ inp out, lookupKey inp "api_key" = none →
       buildModel (HistoricalEvents ak) inp = Except.ok out →
       lookupKey out "api_key" = some (Val.vStr ak)) ∧
    (∀ inst v, assignField (HistoricalEvents ak) inst "api_key" v =
       Except.error "api_key is frozen") ∧
    (∀ inp out, lookupKey inp "api_key" = none →
       buildModel (HistoricalEventOdds ak) inp = Except.ok out →
       lookupKey out "api_key" = some (Val.vStr ak)) ∧
    (∀ inst v, assignField (HistoricalEventOdds ak) inst "api_key" v =
       Except.error "api_key is frozen") :=
  ⟨api_key_default_of_spec (Odds ak) ak rfl, fun _ _ => rfl,
   api_key_default_of_spec (Scores ak) ak rfl, fun _ _ => rfl,
   api_key_default_of_spec (Events ak) ak rfl, fun _ _ => rfl,
   api_key_default_of_spec (EventOdds ak) ak rfl, fun _ _ => rfl,
   api_key_default_of_spec (EventMarkets ak) ak rfl, fun _ _ => rfl,
   api_key_default_of_spec (Participants ak) ak rfl, fun _ _ => rfl,
   api_key_default_of_spec (HistoricalOdds ak) ak rfl, fun _ _ => rfl,
   api_key_default_of_spec (HistoricalEvents ak) ak rfl, fun _ _ => rfl,
   api_key_default_of_spec (HistoricalEventOdds ak) ak rfl, fun _ _ => rfl⟩

/-- C3 (witness): the amended theorem applied to a concrete Odds
construction without caller api_key, settings key "K". -/
theorem c3_witness :
    lookupKey
      [("sport", Val.vSport Sports.upcoming), ("api_key", Val.vStr "K"),
       ("regions", Val.vStr "us"), ("markets", Val.vStr ""),
       ("dateFormat", Val.vStr "iso"), ("oddsFormat", Val.vStr ""),
       ("eventIds", Val.vStr ""), ("bookmakers", Val.vStr ""),
       ("commenceTimeFrom", Val.vStr ""), ("commenceTimeTo", Val.vStr ""),
       ("includeLinks", Val.vBool false), ("includeSids", Val.vBool false),
       ("includeBetLimits", Val.vBool false),
       ("includeRotationNumbers", Val.vBool false)] "api_key" =
      some (Val.vStr "K") :=
  (c3_api_key_settings_default_frozen "K").1
    [("sport", Val.vStr "upcoming")] _ rfl rfl

/-- C4: a sport identifier string is accepted by the sport field
validation exactly when it belongs to the catalog of enumerated member
values (which includes the sentinel "upcoming"); for any string outside
the catalog, constructing any of the nine request models fails with the
validation error naming the invalid value. -/
theorem c4_sport_catalog (ak s : String) :
    (s ∈ Sports.catalog →
       ∃ c, Sports.ofValue s = some c ∧ Sports.value c = s ∧
         validateVType VType.sportsTy (Val.vStr s) =
           Except.ok (Val.vSport c)) ∧
    (s ∉ Sports.catalog → ∀ rest,
       buildModel (Odds ak) (("sport", Val.vStr s) :: rest) =
         Except.error (sportErr s) ∧
       buildModel (Scores ak) (("sport", Val.vStr s) :: rest) =
         Except.error (sportErr s) ∧
       buildModel (Events ak) (("sport", Val.vStr s) :: rest) =
         Except.error (sportErr s) ∧
       buildModel (EventOdds ak) (("sport", Val.vStr s) :: rest) =
         Except.error (sportErr s) ∧
       buildModel (EventMarkets ak) (("sport", Val.vStr s) :: rest) =
         Except.error (sportErr s) ∧
       buildModel (Participants ak) (("sport", Val.vStr s) :: rest) =
         Except.error (sportErr s) ∧
       buildModel (HistoricalOdds ak) (("sport", Val.vStr s) :: rest) =
         Except.error (sportErr s) ∧
       buildModel (HistoricalEvents ak) (("sport", Val.vStr s) :: rest) =
         Except.error (sportErr s) ∧
       buildModel (HistoricalEventOdds ak) (("sport", Val.vStr s) :: rest) =
         Except.error (sportErr s)) ∧
    sportErr s =
      "Input should be a member of the Sports enumeration; the invalid value is "
        ++ s := by
  refine ⟨?_, ?_, rfl⟩
  · intro h
    obtain ⟨c, hc, hv⟩ := sports_ofValue_mem s h
    refine ⟨c, hc, hv, ?_⟩
    simp [validateVType, hc]
  · intro h rest
    have hn := sports_ofValue_none s h
    exact ⟨build_sport_error _ _ s rest rfl hn,
      build_sport_error _ _ s rest rfl hn,
      build_sport_error _ _ s rest rfl hn,
      build_sport_error _ _ s rest rfl hn,
      build_sport_error _ _ s rest rfl hn,
      build_sport_error _ _ s rest rfl hn,
      build_sport_error _ _ s rest rfl hn,
      build_sport_error _ _ s rest rfl hn,
      build_sport_error _ _ s rest rfl hn⟩

/-- C4 (witness): "soccer_epl" is in the catalog and is accepted;
"not_a_real_sport" is outside the catalog and Odds construction fails
with the error naming it. -/
theorem c4_witness :
    (∃ c, Sports.ofValue "soccer_epl" = some c ∧
       Sports.value c = "soccer_epl" ∧
       validateVType VType.sportsTy (Val.vStr "soccer_epl") =
         Except.ok (Val.vSport c)) ∧
    buildModel (Odds "K") [("sport", Val.vStr "not_a_real_sport")] =
      Except.error (sportErr "not_a_real_sport") :=
  ⟨(c4_sport_catalog "K" "soccer_epl").1 (by decide),
   ((c4_sport_catalog "K" "not_a_real_sport").2.1 (by decide) []).1⟩

/-- C5: a caller-supplied daysFrom of 1, 2 or 3 passes Scores
validation and is stored; 0 and 4 are rejected. -/
theorem c5_days_from_range (ak : String) :
    getOk (buildModel (Scores ak)
        [("sport", Val.vStr "soccer_epl"), ("daysFrom", Val.vInt 1)])
      "daysFrom" = some (Val.vInt 1) ∧
    getOk (buildModel (Scores ak)
        [("sport", Val.vStr "soccer_epl"), ("daysFrom", Val.vInt 2)])
      "daysFrom" = some (Val.vInt 2) ∧
    getOk (buildModel (Scores ak)
        [("sport", Val.vStr "soccer_epl"), ("daysFrom", Val.vInt 3)])
      "daysFrom" = some (Val.vInt 3) ∧
    buildOk (buildModel (Scores ak)
        [("sport", Val.vStr "soccer_epl"), ("daysFrom", Val.vInt 0)]) =
      false ∧
    buildOk (buildModel (Scores ak)
        [("sport", Val.vStr "soccer_epl"), ("daysFrom", Val.vInt 4)]) =
      false :=
  ⟨rfl, rfl, rfl, rfl, rfl⟩

/-- C6: Settings construction fails with a configuration error when
ODDS_API_KEY is absent from the merged environment; when it is present
(and no malformed debug value interferes) construction succeeds, the
key is stored, and the field is frozen against later assignment. -/
theorem c6_settings_api_key (env : String → Option String) :
    (env "ODDS_API_KEY" = none →
       Settings.load env = Except.error "odds_api_key: Field required") ∧
    (∀ k, env "ODDS_API_KEY" = some k → env "debug" = none →
       ∃ st, Settings.load env = Except.ok st ∧ st.odds_api_key = k ∧
         Settings.assign st "odds_api_key" (Val.vStr "other") =
           Except.error "odds_api_key is frozen") := by
  constructor
  · intro h
    unfold Settings.load
    rw [h]
  · intro k hk hd
    unfold Settings.load
    rw [hk, hd]
    exact ⟨_, rfl, rfl, rfl⟩

/-- C6 (witness): the theorem applied to an empty environment and to
one holding only ODDS_API_KEY=K123. -/
theorem c6_witness :
    Settings.load (fun _ => none) =
      Except.error "odds_api_key: Field required" ∧
    ∃ st, Settings.load
        (fun n => if n = "ODDS_API_KEY" then some "K123" else none) =
        Except.ok st ∧ st.odds_api_key = "K123" ∧
      Settings.assign st "odds_api_key" (Val.vStr "other") =
        Except.error "odds_api_key is frozen" :=
  ⟨(c6_settings_api_key (fun _ => none)).1 rfl,
   (c6_settings_api_key
      (fun n => if n = "ODDS_API_KEY" then some "K123" else none)).2
     "K123" rfl rfl⟩

/-- C7: values supplied under the wire aliases region, date_format and
event_id are stored under the normalized field names regions,
dateFormat and eventIds (eventId where the event identifier is
required), for every request model declaring the field. -/
theorem c7_alias_mapping (ak x y e eid d : String) :
    getOk (buildModel (Odds ak)
        [("sport", Val.vStr "soccer_epl"),
         ("region", Val.vList [Val.vStr x]),
         ("date_format", Val.vList [Val.vStr y]),
         ("event_id", Val.vList [Val.vStr e])]) "regions" =
      some (Val.vList [Val.vStr x]) ∧
    getOk (buildModel (Odds ak)
        [("sport", Val.vStr "soccer_epl"),
         ("region", Val.vList [Val.vStr x]),
         ("date_format", Val.vList [Val.vStr y]),
         ("event_id", Val.vList [Val.vStr e])]) "dateFormat" =
      some (Val.vList [Val.vStr y]) ∧
    getOk (buildModel (Odds ak)
        [("sport", Val.vStr "soccer_epl"),
         ("region", Val.vList [Val.vStr x]),
         ("date_format", Val.vList [Val.vStr y]),
         ("event_id", Val.vList [Val.vStr e])]) "eventIds" =
      some (Val.vList [Val.vStr e]) ∧
    getOk (buildModel (Scores ak)
        [("sport", Val.vStr "soccer_epl"),
         ("date_format", Val.vList [Val.vStr y]),
         ("event_id", Val.vList [Val.vStr e])]) "dateFormat" =
      some (Val.vList [Val.vStr y]) ∧
    getOk (buildModel (Scores ak)
        [("sport", Val.vStr "soccer_epl"),
         ("date_format", Val.vList [Val.vStr y]),
         ("event_id", Val.vList [Val.vStr e])]) "eventIds" =
      some (Val.vList [Val.vStr e]) ∧
    getOk (buildModel (Events ak)
        [("sport", Val.vStr "soccer_epl"),
         ("date_format", Val.vList [Val.vStr y]),
         ("event_id", Val.vList [Val.vStr e])]) "dateFormat" =
      some (Val.vList [Val.vStr y]) ∧
    getOk (buildModel (Events ak)
        [("sport", Val.vStr "soccer_epl"),
         ("date_format", Val.vList [Val.vStr y]),
         ("event_id", Val.vList [Val.vStr e])]) "eventIds" =
      some (Val.vList [Val.vStr e]) ∧
    getOk (buildModel (EventOdds ak)
        [("sport", Val.vStr "soccer_epl"),
         ("region", Val.vList [Val.vStr x]),
         ("date_format", Val.vList [Val.vStr y]),
         ("event_id", Val.vStr eid)]) "regions" =
      some (Val.vList [Val.vStr x]) ∧
    getOk (buildModel (EventOdds ak)
        [("sport", Val.vStr "soccer_epl"),
         ("region", Val.vList [Val.vStr x]),
         ("date_format", Val.vList [Val.vStr y]),
         ("event_id", Val.vStr eid)]) "dateFormat" =
      some (Val.vList [Val.vStr y]) ∧
    getOk (buildModel (EventOdds ak)
        [("sport", Val.vStr "soccer_epl"),
         ("region", Val.vList [Val.vStr x]),
         ("date_format", Val.vList [Val.vStr y]),
         ("event_id", Val.vStr eid)]) "eventId" =
      some (Val.vStr eid) ∧
    getOk (buildModel (EventMarkets ak)
        [("sport", Val.vStr "soccer_epl"),
         ("region", Val.vList [Val.vStr x]),
         ("date_format", Val.vList [Val.vStr y]),
         ("event_id", Val.vStr eid)]) "regions" =
      some (Val.vList [Val.vStr x]) ∧
    getOk (buildModel (EventMarkets ak)
        [("sport", Val.vStr "soccer_epl"),
         ("region", Val.vList [Val.vStr x]),
         ("date_format", Val.vList [Val.vStr y]),
         ("event_id", Val.vStr eid)]) "dateFormat" =
      some (Val.vList [Val.vStr y]) ∧
    getOk (buildModel (EventMarkets ak)
        [("sport", Val.vStr "soccer_epl"),
         ("region", Val.vList [Val.vStr x]),
         ("date_format", Val.vList [Val.vStr y]),
         ("event_id", Val.vStr eid)]) "eventId" =
      some (Val.vStr eid) ∧
    getOk (buildModel (HistoricalOdds ak)
        [("sport", Val.vStr "soccer_epl"),
         ("region", Val.vList [Val.vStr x]),
         ("date_format", Val.vList [Val.vStr y]),
         ("event_id", Val.vList [Val.vStr e]),
         ("date", Val.vStr d)]) "regions" =
      some (Val.vList [Val.vStr x]) ∧
    getOk (buildModel (HistoricalOdds ak)
        [("sport", Val.vStr "soccer_epl"),
         ("region", Val.vList [Val.vStr x]),
         ("date_format", Val.vList [Val.vStr y]),
         ("event_id", Val.vList [Val.vStr e]),
         ("date", Val.vStr d)]) "dateFormat" =
      some (Val.vList [Val.vStr y]) ∧
    getOk (buildModel (HistoricalOdds ak)
        [("sport", Val.vStr "soccer_epl"),
         ("region", Val.vList [Val.vStr x]),
         ("date_format", Val.vList [Val.vStr y]),
         ("event_id", Val.vList [Val.vStr e]),
         ("date", Val.vStr d)]) "eventIds" =
      some (Val.vList [Val.vStr e]) ∧
    getOk (buildModel (HistoricalEvents ak)
        [("sport", Val.vStr "soccer_epl"), ("date", Val.vStr d),
         ("date_format", Val.vList [Val.vStr y]),
         ("event_id", Val.vList [Val.vStr e])]) "dateFormat" =
      some (Val.vList [Val.vStr y]) ∧
    getOk (buildModel (HistoricalEvents ak)
        [("sport", Val.vStr "soccer_epl"), ("date", Val.vStr d),
         ("date_format", Val.vList [Val.vStr y]),
         ("event_id", Val.vList [Val.vStr e])]) "eventIds" =
      some (Val.vList [Val.vStr e]) ∧
    getOk (buildModel (HistoricalEventOdds ak)
        [("sport", Val.vStr "soccer_epl"),
         ("region", Val.vList [Val.vStr x]),
         ("event_id", Val.vStr eid), ("date", Val.vStr d),
         ("date_format", Val.vList [Val.vStr y])]) "regions" =
      some (Val.vList [Val.vStr x]) ∧
    getOk (buildModel (HistoricalEventOdds ak)
        [("sport", Val.vStr "soccer_epl"),
         ("region", Val.vList [Val.vStr x]),
         ("event_id", Val.vStr eid), ("date", Val.vStr d),
         ("date_format", Val.vList [Val.vStr y])]) "dateFormat" =
      some (Val.vList [Val.vStr y]) ∧
    getOk (buildModel (HistoricalEventOdds ak)
        [("sport", Val.vStr "soccer_epl"),
         ("region", Val.vList [Val.vStr x]),
         ("event_id", Val.vStr eid), ("date", Val.vStr d),
         ("date_format", Val.vList [Val.vStr y])]) "eventId" =
      some (Val.vStr eid) :=
  ⟨rfl, rfl, rfl, rfl, rfl, rfl, rfl, rfl, rfl, rfl, rfl, rfl, rfl,
   rfl, rfl, rfl, rfl, rfl, rfl, rfl, rfl⟩

/-- C8: against a reachable server, the database-existence check
returns exactly whether the name is a row of pg_database (false for an
absent name, without raising); an unreachable server propagates the
connection error rather than producing a boolean. -/
theorem c8_database_exists_check (srv : PgServer) (n : String) :
    database_exists (some srv) n =
      Except.ok (decide (n ∈ srv.pg_database)) ∧
    database_exists none n =
      Except.error "connection failed: could not connect to server" := by
  constructor
  · exact congrArg Except.ok (scalar_query srv.pg_database n)
  · rfl

/-- C9: constructing Scores without daysFrom succeeds with
daysFrom = None; the default bypasses the validate_days_from validator
entirely, which would reject None had it run. -/
theorem c9_days_from_omitted (ak : String) :
    getOk (buildModel (Scores ak) [("sport", Val.vStr "soccer_epl")])
      "daysFrom" = some Val.vNone ∧
    buildOk (buildModel (Scores ak) [("sport", Val.vStr "soccer_epl")]) =
      true ∧
    daysFromCheck Val.vNone =
      Except.error
        "TypeError: comparison not supported between NoneType and int" :=
  ⟨rfl, rfl, rfl⟩

/-- C10: the "Sport not supported" branch of check_sport is
unreachable: on every field-validated Sport instance the key is a
member of the Sports enumeration, an enum member is never falsy in
Python, and check_sport returns the instance unchanged. -/
theorem c10_check_sport_unreachable (sp : Sport) :
    (Val.vSport sp.key).falsy = false ∧
    Sport.check_sport sp = Except.ok sp ∧
    sp.key ∈ Sports.all :=
  ⟨rfl, rfl, Sports.mem_all sp.key⟩
